import Mathlib

/-!
# Verification of the MoviePilot-MCP authenticated HTTP client

Shallow embedding of `client.py` (class `MoviePilotClient`): the credential
lifecycle (login, lazy acquisition, invalidation, single-flight re-login) and
the request/retry protocol of `_request`.

Network effects are modelled by an oracle `trace : Nat → HttpOutcome` giving
the outcome of the k-th HTTP call issued by the client; every function that
performs network calls threads a call counter `n`, so the number of HTTP
attempts made by an operation is the difference of the final and initial
counter.
-/

namespace MoviePilot

/-- A JSON value, as produced by `response.json()`. -/
inductive JsonVal where
  | null
  | bool (b : Bool)
  | num (n : Int)
  | str (s : String)
  | arr (xs : List JsonVal)
  | obj (fields : List (String × JsonVal))

/-- Python truthiness of a JSON value (`if not x`). -/
def JsonVal.truthy : JsonVal → Bool
  | .null => false
  | .bool b => b
  | .num n => n != 0
  | .str s => s != ""
  | .arr xs => !xs.isEmpty
  | .obj fs => !fs.isEmpty

/-- Python `str()` of a JSON value, used when the token is interpolated into
the `Authorization` header (`f"Bearer {self._token}"`).  Container rendering
is abbreviated; no claim evaluates it on containers. -/
def pyStr : JsonVal → String
  | .null => "None"
  | .bool true => "True"
  | .bool false => "False"
  | .num n => toString n
  | .str s => s
  | .arr _ => "[...]"
  | .obj _ => "{...}"

/-- Python `str()` of the `_token` attribute (`None` or a JSON value). -/
def pyStrOpt : Option JsonVal → String
  | none => "None"
  | some v => pyStr v

/-- The body of an HTTP response: empty content, content that parses as JSON,
or non-JSON text. -/
inductive BodyKind where
  | empty
  | json (v : JsonVal)
  | raw (s : String)

/-- Python `not response.content`. -/
def BodyKind.contentEmpty : BodyKind → Bool
  | .empty => true
  | .raw s => s == ""
  | .json _ => false

/-- Best-effort error detail: `e.response.json()` if it parses, else
`e.response.text` (source: the `try/except` around `error_detail`). -/
inductive Detail where
  | json (v : JsonVal)
  | text (s : String)

/-- The detail extracted from an error response body. -/
def detailOf : BodyKind → Detail
  | .empty => .text ""
  | .json v => .json v
  | .raw s => .text s

/-- The outcome of one HTTP call, as seen by the client:
a status-coded response, an `httpx.RequestError` (transport failure), or any
other exception raised by the transport call. -/
inductive HttpOutcome where
  | response (status : Nat) (body : BodyKind)
  | transportError (msg : String)
  | otherError (msg : String)

/-- `response.is_success` in httpx: `raise_for_status()` raises
`HTTPStatusError` exactly when the status is not 2xx. -/
def isSuccess (status : Nat) : Bool := 200 ≤ status && status ≤ 299

/-- Causes of the `except Exception` fallback inside `login()`:
the inner no-token `AuthenticationError` being re-wrapped, a success body
that `response.json()` cannot parse, a parsed body that is not a dict
(so `.get` raises), or any other exception from the call. -/
inductive LoginUnexpected where
  | noAccessToken
  | bodyNotJson
  | tokenDataNotDict
  | otherEx (msg : String)

/-- An `AuthenticationError` raised inside `login()` (its `status_code`
attribute is always `None`: `login` never passes a second argument). -/
inductive LoginErr where
  | httpStatus (status : Nat) (detail : Detail)
  | network (msg : String)
  | unexpected (cause : LoginUnexpected)

/-- Why an `AuthenticationError` was raised: inside `login()`, or by
`_request` when the 401/403 retry budget is exhausted (the only site that
sets `status_code`). -/
inductive AuthReason where
  | login (e : LoginErr)
  | expiredOrInvalid (status : Nat)

/-- The `status_code` attribute of the raised `AuthenticationError`. -/
def AuthReason.statusCode : AuthReason → Option Nat
  | .login _ => none
  | .expiredOrInvalid s => some s

/-- The `MoviePilotError` hierarchy as raised by `_request`:
`AuthenticationError`, the `API Error (status): detail` wrap of a non-auth
error status, the `Network error:` wrap of `httpx.RequestError`, and the
`An unexpected error occurred:` wrap of any other exception. -/
inductive MpErr where
  | auth (r : AuthReason)
  | apiStatus (status : Nat) (detail : Detail)
  | network (msg : String)
  | unexpected (msg : String)

/-- The mutable client state: the held token (`self._token`).  It is a JSON
value because `login` stores whatever `token_data.get("access_token")`
returns. -/
structure ClientState where
  token : Option JsonVal

/-- Python `if not self._token` — the token is `None` or falsy. -/
def tokenAbsent : Option JsonVal → Bool
  | none => true
  | some v => !v.truthy

/-- Return value of `_request`: `None` (204 / empty body), a parsed JSON
value, or the raw text of a successful non-JSON body. -/
inductive ReqValue where
  | null
  | json (v : JsonVal)
  | text (s : String)

/-- `MoviePilotClient.login`, applied to the outcome of its single HTTP call.
Translates lines 58–99 of `client.py`:
`raise_for_status` on non-2xx is caught as `HTTPStatusError` and wrapped;
`httpx.RequestError` is wrapped as a network failure; on a 2xx response,
`token_data = response.json()` then `self._token = token_data.get("access_token")`
(the assignment happens before the truthiness check, so a missing or falsy
token is still stored) and an absent token raises `AuthenticationError`,
which — being raised inside the `try` — is re-caught by `except Exception`
and re-wrapped (still an `AuthenticationError`). -/
def login (st : ClientState) (out : HttpOutcome) :
    ClientState × Except LoginErr Unit :=
  match out with
  | .transportError msg => (st, .error (.network msg))
  | .otherError msg => (st, .error (.unexpected (.otherEx msg)))
  | .response status body =>
    if isSuccess status then
      match body with
      | .json (JsonVal.obj fields) =>
        let t := fields.lookup "access_token"
        if tokenAbsent t then
          ({ st with token := t }, .error (.unexpected .noAccessToken))
        else
          ({ st with token := t }, .ok ())
      | .json _ => (st, .error (.unexpected .tokenDataNotDict))
      | .empty => (st, .error (.unexpected .bodyNotJson))
      | .raw _ => (st, .error (.unexpected .bodyNotJson))
    else
      (st, .error (.httpStatus status (detailOf body)))

/-- `MoviePilotClient._get_auth_headers` (lines 101–108), sequentialised:
if no (truthy) token is held, perform `login()` — consuming one HTTP call —
and propagate its failure; otherwise no network call happens.  Returns the
`Authorization` header value `f"Bearer {self._token}"` read from the
post-login state.  (The double-checked lock is modelled separately in the
`Race` section, where interleavings matter.) -/
def getAuthHeaders (st : ClientState) (trace : Nat → HttpOutcome) (n : Nat) :
    ClientState × Nat × Except LoginErr String :=
  if tokenAbsent st.token then
    match login st (trace n) with
    | (st', .ok ()) => (st', n + 1, .ok ("Bearer " ++ pyStrOpt st'.token))
    | (st', .error e) => (st', n + 1, .error e)
  else
    (st, n, .ok ("Bearer " ++ pyStrOpt st.token))

/-- The argument bundle of `_request` that is passed unchanged to the
recursive retry call (method, endpoint, params, json_data, data,
requires_auth). -/
structure ReqArgs where
  method : String
  endpoint : String
  params : Option JsonVal := none
  jsonData : Option JsonVal := none
  formData : Option JsonVal := none
  requiresAuth : Bool := true

/-- `MoviePilotClient._request` (lines 110–177).  `retry` is the `retry`
parameter (default 1); `n` is the index of the next HTTP call in `trace`.

Control flow of the source: the auth headers are obtained *before* the
`try` block, so a login `AuthenticationError` propagates unchanged;
the HTTP call is issued; on 2xx the body is returned (`None` for 204/empty,
parsed JSON, or raw text for unparseable bodies); on 401/403 the token is
cleared and, if `retry > 0`, the identical request re-executes with
`retry - 1` — the recursive call sits inside the `except HTTPStatusError`
handler, so its own exceptions are not re-caught by this frame; with the
budget exhausted an `AuthenticationError` carrying the status is raised;
other error statuses raise `MoviePilotError`, `httpx.RequestError` raises
the network wrap, any other exception the unexpected wrap. -/
def request (args : ReqArgs) (trace : Nat → HttpOutcome) :
    Nat → ClientState → Nat → ClientState × Nat × Except MpErr ReqValue
  | retry, st, n =>
    match (if args.requiresAuth then getAuthHeaders st trace n
           else (st, n, .ok "")) with
    | (st1, n1, .error e) => (st1, n1, .error (.auth (.login e)))
    | (st1, n1, .ok _) =>
      match trace n1 with
      | .transportError msg =>
        (st1, n1 + 1, .error (.network ("Network error: " ++ msg)))
      | .otherError msg =>
        (st1, n1 + 1, .error (.unexpected ("An unexpected error occurred: " ++ msg)))
      | .response status body =>
        if isSuccess status then
          if status == 204 || body.contentEmpty then
            (st1, n1 + 1, .ok .null)
          else
            match body with
            | .json v => (st1, n1 + 1, .ok (.json v))
            | .raw s => (st1, n1 + 1, .ok (.text s))
            | .empty => (st1, n1 + 1, .ok .null)
        else if status == 401 || status == 403 then
          match retry with
          | r + 1 => request args trace r { st1 with token := none } (n1 + 1)
          | 0 => ({ st1 with token := none }, n1 + 1,
                  .error (.auth (.expiredOrInvalid status)))
        else
          (st1, n1 + 1, .error (.apiStatus status (detailOf body)))

/-- The token-clearing assignment `self._token = None` performed by
`_request` on a 401/403 response (line 155); the spec's `invalidate()`. -/
def invalidate (st : ClientState) : ClientState := { st with token := none }

/-- The relevant environment variables, as returned by `os.getenv`
(`MOVIEPILOT_BASE_URL`, `MOVIEPILOT_USERNAME`, `MOVIEPILOT_PASSWORD`). -/
structure Env where
  baseUrl : Option String := none
  username : Option String := none
  password : Option String := none

/-- Python `arg or env`: the argument unless it is `None` or the empty
string, else the environment value. -/
def pyOr (arg env : Option String) : Option String :=
  match arg with
  | some s => if s == "" then env else some s
  | none => env

/-- Python `if not v` on an optional string: `None` or empty. -/
def optStrFalsy : Option String → Bool
  | none => true
  | some s => s == ""

/-- The immutable configuration held by a successfully constructed client. -/
structure ClientConfig where
  baseUrl : String
  username : String
  password : String

/-- The exception aborting `__init__`: either the `TypeError` that httpx's
`URL(...)` raises from `AsyncClient(base_url=None)` at line 47 (when the
resolved base URL is `None`), or one of the two descriptive `ValueError`s
of the validation block at lines 50–56. -/
inductive InitError where
  | typeError (msg : String)
  | valueError (msg : String)

/-- Whether the construction failure is one of the descriptive
configuration `ValueError`s (as opposed to httpx's raw `TypeError`). -/
def InitError.isValueError : InitError → Bool
  | .typeError _ => false
  | .valueError _ => true

/-- Stands for the message of the `TypeError` raised by `httpx.URL` on a
non-string url (the real text interpolates the Python type and repr of the
value). -/
def httpxUrlTypeMsg : String := "Invalid type for url. Expected str or httpx.URL"

/-- The descriptive `ValueError` message for a falsy `base_url`
(client.py line 51). -/
def urlMissingMsg : String := "MoviePilot URL未提供。请在 .env 文件中设置 MOVIEPILOT_BASE_URL。"

/-- The descriptive `ValueError` message for falsy credentials
(client.py lines 53–56). -/
def credentialsMissingMsg : String :=
  "未提供用户名和密码，无法进行自动登录。请在 .env 文件中设置 MOVIEPILOT_USERNAME 和 MOVIEPILOT_PASSWORD。"

/-- `MoviePilotClient.__init__` (lines 36–56), in source order: resolve each
value as `argument or environment variable` (lines 43–45); construct the
`httpx.AsyncClient` transport with the resolved `base_url` (line 47) — when
that value is `None`, httpx raises `TypeError` here, before any validation
(an empty-string base URL is accepted by httpx); only then validate
`base_url` (line 50, reachable only with the empty string) and the two
credentials together (line 52), raising the descriptive `ValueError`s.  In
every failure case `__init__` raises, so the caller receives no client (the
transport object constructed at line 47 is discarded un-returned).  On
success the client starts with `_token = None`. -/
def clientInit (baseUrlArg usernameArg passwordArg : Option String)
    (env : Env) : Except InitError (ClientConfig × ClientState) :=
  let b := pyOr baseUrlArg env.baseUrl
  let u := pyOr usernameArg env.username
  let p := pyOr passwordArg env.password
  match b with
  | none => .error (.typeError httpxUrlTypeMsg)
  | some bs =>
    if bs == "" then
      .error (.valueError urlMissingMsg)
    else if optStrFalsy u || optStrFalsy p then
      .error (.valueError credentialsMissingMsg)
    else
      .ok ({ baseUrl := bs, username := u.getD "", password := p.getD "" },
           { token := none })

/-- The HTTP request sent by one call, as handed to the transport. -/
structure SentRequest where
  method : String
  endpoint : String
  formData : List (String × String)
  headers : List (String × String)

/-- The request `login()` issues (lines 61–73): a POST of the form-encoded
`login_data` dict to `login_endpoint`, with the form content type. -/
def loginSentRequest (username password : String) : SentRequest :=
  { method := "POST"
    endpoint := "/api/v1/login/access-token"
    formData := [("username", username), ("password", password)]
    headers := [("Content-Type", "application/x-www-form-urlencoded")] }

/-- The full URL of a sent request: `f"{self.base_url}{endpoint}"`. -/
def SentRequest.fullUrl (r : SentRequest) (baseUrl : String) : String :=
  baseUrl ++ r.endpoint

/-! ## Interleaving model of `_get_auth_headers` under concurrency

`N` cooperative callers share one client and each run `_get_auth_headers`
(lines 101–108).  Atomic steps are the segments between `await` points:
the unlocked truthiness check of `self._token`, acquiring `self._auth_lock`,
the re-check under the lock, and the `login()` call (whose only shared-state
effect is the final token write).  `outs k` is the outcome of the `k`-th
login network call issued; `loginCount` counts those calls. -/

/-- Program counter of one caller inside `_get_auth_headers`. -/
inductive PC where
  | start
  | waitLock
  | locked
  | loggingIn
  | done (header : String)
  | failed
deriving DecidableEq

/-- Shared state of the race: the client's token, the holder of
`_auth_lock`, how many login network calls have been issued, and each
caller's program counter. -/
structure RaceState (N : Nat) where
  token : Option JsonVal
  lock : Option (Fin N)
  loginCount : Nat
  pc : Fin N → PC

/-- The `Authorization` header value returned at line 108. -/
def bearer (t : Option JsonVal) : String := "Bearer " ++ pyStrOpt t

/-- One atomic step of one caller. -/
inductive RStep (N : Nat) (outs : Nat → HttpOutcome) :
    RaceState N → RaceState N → Prop where
  /-- Line 103 with a truthy token: skip the lock, return the header. -/
  | checkHeld (i : Fin N) (s : RaceState N) :
      s.pc i = .start → tokenAbsent s.token = false →
      RStep N outs s { s with pc := Function.update s.pc i (.done (bearer s.token)) }
  /-- Line 103 with an absent token: go wait on `self._auth_lock`. -/
  | checkAbsent (i : Fin N) (s : RaceState N) :
      s.pc i = .start → tokenAbsent s.token = true →
      RStep N outs s { s with pc := Function.update s.pc i .waitLock }
  /-- Acquire the free lock. -/
  | acquire (i : Fin N) (s : RaceState N) :
      s.pc i = .waitLock → s.lock = none →
      RStep N outs s { s with lock := some i, pc := Function.update s.pc i .locked }
  /-- Line 105 re-check under the lock: a token appeared while waiting —
  release and return the header. -/
  | recheckHeld (i : Fin N) (s : RaceState N) :
      s.pc i = .locked → tokenAbsent s.token = false →
      RStep N outs s { s with lock := none,
                              pc := Function.update s.pc i (.done (bearer s.token)) }
  /-- Line 105 re-check under the lock: still absent — start `login()`. -/
  | recheckAbsent (i : Fin N) (s : RaceState N) :
      s.pc i = .locked → tokenAbsent s.token = true →
      RStep N outs s { s with pc := Function.update s.pc i .loggingIn }
  /-- `login()` returns successfully: token written, lock released on
  leaving the `async with`, header returned from the fresh token. -/
  | loginOk (i : Fin N) (s : RaceState N) (st' : ClientState) :
      s.pc i = .loggingIn →
      login ⟨s.token⟩ (outs s.loginCount) = (st', .ok ()) →
      RStep N outs s { token := st'.token, lock := none,
                       loginCount := s.loginCount + 1,
                       pc := Function.update s.pc i (.done (bearer st'.token)) }
  /-- `login()` raises `AuthenticationError`: the `async with` releases the
  lock and the error propagates to this caller alone. -/
  | loginFail (i : Fin N) (s : RaceState N) (st' : ClientState) (e : LoginErr) :
      s.pc i = .loggingIn →
      login ⟨s.token⟩ (outs s.loginCount) = (st', .error e) →
      RStep N outs s { token := st'.token, lock := none,
                       loginCount := s.loginCount + 1,
                       pc := Function.update s.pc i .failed }

/-- The initial race state: no token held, lock free, all `N` callers about
to run `_get_auth_headers`. -/
def raceInit (N : Nat) : RaceState N :=
  { token := none, lock := none, loginCount := 0, pc := fun _ => .start }

/-- States reachable from the initial race state. -/
inductive RReach (N : Nat) (outs : Nat → HttpOutcome) : RaceState N → Prop where
  | init : RReach N outs (raceInit N)
  | step {s s' : RaceState N} : RReach N outs s → RStep N outs s s' →
      RReach N outs s'

/-! ## Concrete scenarios used by the spec's testable properties -/

/-- The spec's sample call `GET /api/v1/user/` with all defaults. -/
def gArgs : ReqArgs := { method := "GET", endpoint := "/api/v1/user/" }

/-- A successful login response body carrying an access token. -/
def okLoginBody : BodyKind := .json (.obj [("access_token", .str "tok2")])

/-- A sample JSON payload returned by the API. -/
def userBody : JsonVal := .obj [("id", .num 1)]

/-- HTTP-call schedule for P2's success half: the first request attempt is
rejected 401 (call 0), the transparent re-login succeeds (call 1) and the
retried request attempt returns 200 JSON (call 2). -/
def trace401then200 : Nat → HttpOutcome
  | 0 => .response 401 .empty
  | 1 => .response 200 okLoginBody
  | _ => .response 200 (.json userBody)

/-- HTTP-call schedule for P2's failure half: both request attempts
(calls 0 and 2) are rejected 401; the re-login in between (call 1)
succeeds. -/
def trace401twice : Nat → HttpOutcome
  | 1 => .response 200 okLoginBody
  | _ => .response 401 .empty

/-- Login-outcome schedule where every login attempt fails at transport
level (e.g. connection refused). -/
def refusedOuts : Nat → HttpOutcome := fun _ => .transportError "connection refused"

/-- Login-outcome schedule where every login attempt succeeds. -/
def okOuts : Nat → HttpOutcome := fun _ => .response 200 okLoginBody

/-- Inductive invariant of the race when the first login succeeds with
post-state `st₀`: lock discipline (a caller at `locked`/`loggingIn` holds
the lock), a login only runs while the token is absent, the token is
absent before the single login and equal to `st₀.token` after it, no
caller ever observes a login failure, and every finished caller holds the
header of that single login's token. -/
def RaceInv (N : Nat) (st₀ : ClientState) (s : RaceState N) : Prop :=
  (∀ i, (s.pc i = .locked ∨ s.pc i = .loggingIn) → s.lock = some i)
  ∧ (∀ i, s.pc i = .loggingIn → tokenAbsent s.token = true)
  ∧ ((s.loginCount = 0 ∧ s.token = none) ∨ (s.loginCount = 1 ∧ s.token = st₀.token))
  ∧ (∀ i, s.pc i ≠ .failed)
  ∧ (∀ i h, s.pc i = .done h → h = bearer st₀.token ∧ s.loginCount = 1)

/-! ## Helper lemmas -/

/-- A successful `login` always leaves a truthy token (the truthiness check
precedes `ok`). -/
theorem login_ok_token (st st' : ClientState) (out : HttpOutcome)
    (h : login st out = (st', .ok ())) : tokenAbsent st'.token = false := by
  cases out with
  | transportError msg => simp [login] at h
  | otherError msg => simp [login] at h
  | response status body =>
    unfold login at h
    by_cases hs : isSuccess status = true
    · simp only [hs, if_true] at h
      cases body with
      | empty => simp at h
      | raw s => simp at h
      | json v =>
        cases v with
        | obj fields =>
          by_cases ht : tokenAbsent (fields.lookup "access_token") = true
          · simp [ht] at h
          · simp only [ht, if_false, Bool.not_eq_true] at h ⊢
            cases h
            simpa using ht
        | null => simp at h
        | bool b => simp at h
        | num n => simp at h
        | str s => simp at h
        | arr xs => simp at h
    · simp [hs] at h

/-- Unfolding of `_request` for one attempt made while a truthy token is
held (so no login precedes the HTTP call, whatever `requires_auth` is). -/
theorem request_step_eq (args : ReqArgs) (trace : Nat → HttpOutcome) (retry : Nat)
    (st : ClientState) (n : Nat) (h : tokenAbsent st.token = false) :
    request args trace retry st n =
      match trace n with
      | .transportError msg => (st, n + 1, .error (.network ("Network error: " ++ msg)))
      | .otherError msg => (st, n + 1, .error (.unexpected ("An unexpected error occurred: " ++ msg)))
      | .response status body =>
        if isSuccess status then
          if status == 204 || body.contentEmpty then (st, n + 1, .ok .null)
          else
            match body with
            | .json v => (st, n + 1, .ok (.json v))
            | .raw s => (st, n + 1, .ok (.text s))
            | .empty => (st, n + 1, .ok .null)
        else if status == 401 || status == 403 then
          match retry with
          | r + 1 => request args trace r { st with token := none } (n + 1)
          | 0 => ({ st with token := none }, n + 1, .error (.auth (.expiredOrInvalid status)))
        else (st, n + 1, .error (.apiStatus status (detailOf body))) := by
  conv_lhs => rw [request]
  by_cases hra : args.requiresAuth = true
  · simp only [hra, if_true, getAuthHeaders, h, Bool.false_eq_true, if_false]
  · simp only [hra, Bool.false_eq_true, if_false]

/-- Unfolding of `_request` for an attempt made with no (truthy) token under
`requires_auth`: the login runs first, consuming one HTTP call, and a login
failure aborts the attempt before the request is sent. -/
theorem request_login_first (args : ReqArgs) (trace : Nat → HttpOutcome)
    (retry : Nat) (st : ClientState) (n : Nat)
    (hra : args.requiresAuth = true) (habs : tokenAbsent st.token = true) :
    request args trace retry st n =
      match login st (trace n) with
      | (st', .ok ()) => request args trace retry st' (n + 1)
      | (st', .error e) => (st', n + 1, .error (.auth (.login e))) := by
  cases hl : login st (trace n) with
  | mk st' r =>
    cases r with
    | ok u =>
      cases u
      have htok := login_ok_token st st' (trace n) hl
      conv_lhs => rw [request]
      simp only [hra, if_true, getAuthHeaders, habs, if_true, hl]
      rw [request_step_eq args trace retry st' (n + 1) htok]
    | error e =>
      conv_lhs => rw [request]
      simp only [hra, if_true, getAuthHeaders, habs, if_true, hl]

/-- The invariant holds initially. -/
theorem raceInv_init (N : Nat) (st₀ : ClientState) : RaceInv N st₀ (raceInit N) := by
  refine ⟨?_, ?_, Or.inl ⟨rfl, rfl⟩, ?_, ?_⟩
  · intro i hi
    rcases hi with hi | hi <;> exact PC.noConfusion hi
  · intro i hi
    exact PC.noConfusion hi
  · intro i hi
    exact PC.noConfusion hi
  · intro i h hi
    exact PC.noConfusion hi

/-- The invariant is preserved by every step, provided the first login
succeeds with post-state `st₀`. -/
theorem raceInv_step (N : Nat) (outs : Nat → HttpOutcome) (st₀ : ClientState)
    (hok : login ⟨none⟩ (outs 0) = (st₀, .ok ()))
    {s s' : RaceState N} (hinv : RaceInv N st₀ s) (hstep : RStep N outs s s') :
    RaceInv N st₀ s' := by
  obtain ⟨inv1, inv2, inv3, inv4, inv5⟩ := hinv
  cases hstep with
  | checkHeld i s hpc htok =>
    have hct : s.loginCount = 1 ∧ s.token = st₀.token := by
      rcases inv3 with ⟨hc0, ht0⟩ | h1
      · rw [ht0] at htok; simp [tokenAbsent] at htok
      · exact h1
    dsimp only [RaceInv]
    refine ⟨?_, ?_, Or.inr hct, ?_, ?_⟩
    · intro j hj
      by_cases hji : j = i
      · subst hji
        rw [Function.update_same] at hj
        rcases hj with hj | hj <;> exact PC.noConfusion hj
      · rw [Function.update_noteq hji] at hj
        exact inv1 j hj
    · intro j hj
      by_cases hji : j = i
      · subst hji
        rw [Function.update_same] at hj
        exact PC.noConfusion hj
      · rw [Function.update_noteq hji] at hj
        exact inv2 j hj
    · intro j hj
      by_cases hji : j = i
      · subst hji
        rw [Function.update_same] at hj
        exact PC.noConfusion hj
      · rw [Function.update_noteq hji] at hj
        exact inv4 j hj
    · intro j h hj
      by_cases hji : j = i
      · subst hji
        rw [Function.update_same] at hj
        cases hj
        exact ⟨by rw [hct.2], hct.1⟩
      · rw [Function.update_noteq hji] at hj
        exact inv5 j h hj
  | checkAbsent i s hpc htok =>
    dsimp only [RaceInv]
    refine ⟨?_, ?_, inv3, ?_, ?_⟩
    · intro j hj
      by_cases hji : j = i
      · subst hji
        rw [Function.update_same] at hj
        rcases hj with hj | hj <;> exact PC.noConfusion hj
      · rw [Function.update_noteq hji] at hj
        exact inv1 j hj
    · intro j hj
      by_cases hji : j = i
      · subst hji
        rw [Function.update_same] at hj
        exact PC.noConfusion hj
      · rw [Function.update_noteq hji] at hj
        exact inv2 j hj
    · intro j hj
      by_cases hji : j = i
      · subst hji
        rw [Function.update_same] at hj
        exact PC.noConfusion hj
      · rw [Function.update_noteq hji] at hj
        exact inv4 j hj
    · intro j h hj
      by_cases hji : j = i
      · subst hji
        rw [Function.update_same] at hj
        exact PC.noConfusion hj
      · rw [Function.update_noteq hji] at hj
        exact inv5 j h hj
  | acquire i s hpc hlock =>
    dsimp only [RaceInv]
    refine ⟨?_, ?_, inv3, ?_, ?_⟩
    · intro j hj
      by_cases hji : j = i
      · subst hji; rfl
      · rw [Function.update_noteq hji] at hj
        have := inv1 j hj
        rw [hlock] at this
        exact Option.noConfusion this
    · intro j hj
      by_cases hji : j = i
      · subst hji
        rw [Function.update_same] at hj
        exact PC.noConfusion hj
      · rw [Function.update_noteq hji] at hj
        exact inv2 j hj
    · intro j hj
      by_cases hji : j = i
      · subst hji
        rw [Function.update_same] at hj
        exact PC.noConfusion hj
      · rw [Function.update_noteq hji] at hj
        exact inv4 j hj
    · intro j h hj
      by_cases hji : j = i
      · subst hji
        rw [Function.update_same] at hj
        exact PC.noConfusion hj
      · rw [Function.update_noteq hji] at hj
        exact inv5 j h hj
  | recheckHeld i s hpc htok =>
    have hct : s.loginCount = 1 ∧ s.token = st₀.token := by
      rcases inv3 with ⟨hc0, ht0⟩ | h1
      · rw [ht0] at htok; simp [tokenAbsent] at htok
      · exact h1
    dsimp only [RaceInv]
    refine ⟨?_, ?_, Or.inr hct, ?_, ?_⟩
    · intro j hj
      by_cases hji : j = i
      · subst hji
        rw [Function.update_same] at hj
        rcases hj with hj | hj <;> exact PC.noConfusion hj
      · rw [Function.update_noteq hji] at hj
        have h1 := inv1 j hj
        have h2 := inv1 i (Or.inl hpc)
        rw [h1] at h2
        injection h2 with h3
        exact absurd h3 hji
    · intro j hj
      by_cases hji : j = i
      · subst hji
        rw [Function.update_same] at hj
        exact PC.noConfusion hj
      · rw [Function.update_noteq hji] at hj
        exact inv2 j hj
    · intro j hj
      by_cases hji : j = i
      · subst hji
        rw [Function.update_same] at hj
        exact PC.noConfusion hj
      · rw [Function.update_noteq hji] at hj
        exact inv4 j hj
    · intro j h hj
      by_cases hji : j = i
      · subst hji
        rw [Function.update_same] at hj
        cases hj
        exact ⟨by rw [hct.2], hct.1⟩
      · rw [Function.update_noteq hji] at hj
        exact inv5 j h hj
  | recheckAbsent i s hpc htok =>
    dsimp only [RaceInv]
    refine ⟨?_, ?_, inv3, ?_, ?_⟩
    · intro j hj
      by_cases hji : j = i
      · subst hji
        exact inv1 _ (Or.inl hpc)
      · rw [Function.update_noteq hji] at hj
        exact inv1 j hj
    · intro j hj
      exact htok
    · intro j hj
      by_cases hji : j = i
      · subst hji
        rw [Function.update_same] at hj
        exact PC.noConfusion hj
      · rw [Function.update_noteq hji] at hj
        exact inv4 j hj
    · intro j h hj
      by_cases hji : j = i
      · subst hji
        rw [Function.update_same] at hj
        exact PC.noConfusion hj
      · rw [Function.update_noteq hji] at hj
        exact inv5 j h hj
  | loginOk i s st' hpc hlogin =>
    have habs : tokenAbsent s.token = true := inv2 i hpc
    have hc0t : s.loginCount = 0 ∧ s.token = none := by
      rcases inv3 with h0 | ⟨hc1, ht1⟩
      · exact h0
      · rw [ht1] at habs
        rw [login_ok_token ⟨none⟩ st₀ (outs 0) hok] at habs
        exact Bool.noConfusion habs
    have hst : st₀ = st' := by
      rw [hc0t.2, hc0t.1, hok] at hlogin
      injection hlogin with h1 h2
    dsimp only [RaceInv]
    refine ⟨?_, ?_, Or.inr ⟨by rw [hc0t.1], by rw [← hst]⟩, ?_, ?_⟩
    · intro j hj
      by_cases hji : j = i
      · subst hji
        rw [Function.update_same] at hj
        rcases hj with hj | hj <;> exact PC.noConfusion hj
      · rw [Function.update_noteq hji] at hj
        have h1 := inv1 j hj
        have h2 := inv1 i (Or.inr hpc)
        rw [h1] at h2
        injection h2 with h3
        exact absurd h3 hji
    · intro j hj
      by_cases hji : j = i
      · subst hji
        rw [Function.update_same] at hj
        exact PC.noConfusion hj
      · rw [Function.update_noteq hji] at hj
        have h1 := inv1 j (Or.inr hj)
        have h2 := inv1 i (Or.inr hpc)
        rw [h1] at h2
        injection h2 with h3
        exact absurd h3 hji
    · intro j hj
      by_cases hji : j = i
      · subst hji
        rw [Function.update_same] at hj
        exact PC.noConfusion hj
      · rw [Function.update_noteq hji] at hj
        exact inv4 j hj
    · intro j h hj
      by_cases hji : j = i
      · subst hji
        rw [Function.update_same] at hj
        cases hj
        exact ⟨by rw [← hst], by rw [hc0t.1]⟩
      · rw [Function.update_noteq hji] at hj
        have := (inv5 j h hj).2
        rw [hc0t.1] at this
        exact Nat.noConfusion this
  | loginFail i s st' e hpc hlogin =>
    have habs : tokenAbsent s.token = true := inv2 i hpc
    have hc0t : s.loginCount = 0 ∧ s.token = none := by
      rcases inv3 with h0 | ⟨hc1, ht1⟩
      · exact h0
      · rw [ht1] at habs
        rw [login_ok_token ⟨none⟩ st₀ (outs 0) hok] at habs
        exact Bool.noConfusion habs
    rw [hc0t.2, hc0t.1, hok] at hlogin
    injection hlogin with h1 h2
    exact Except.noConfusion h2

/-- Every reachable race state satisfies the invariant when the first
login succeeds. -/
theorem raceInv_reach (N : Nat) (outs : Nat → HttpOutcome) (st₀ : ClientState)
    (hok : login ⟨none⟩ (outs 0) = (st₀, .ok ()))
    {s : RaceState N} (h : RReach N outs s) : RaceInv N st₀ s := by
  induction h with
  | init => exact raceInv_init N st₀
  | step hr hst ih => exact raceInv_step N outs st₀ hok ih hst

/-! ## Claim theorems -/

/-- C3: every failure of `_request` is classified into one of the typed
`MoviePilotError` kinds (no raw exception can escape: the result type of the
embedding is exhaustive by construction, and each transport-level case maps
to the shown constructor).  With a token held: a non-auth HTTP error status
fails with the generic `MoviePilotError` carrying the status and a detail
that is the parsed JSON error body when parseable, else the raw response
text; an `httpx.RequestError` fails with the network-classified wrap; any
other exception from the call fails with the unexpected wrap. -/
theorem C3_error_classification (args : ReqArgs) (trace : Nat → HttpOutcome)
    (retry : Nat) (st : ClientState) (n : Nat)
    (h : tokenAbsent st.token = false) :
    (∀ status body, trace n = .response status body → isSuccess status = false →
      status ≠ 401 → status ≠ 403 →
      request args trace retry st n =
        (st, n + 1, .error (.apiStatus status (detailOf body))))
    ∧ (∀ msg, trace n = .transportError msg →
      request args trace retry st n =
        (st, n + 1, .error (.network ("Network error: " ++ msg))))
    ∧ (∀ msg, trace n = .otherError msg →
      request args trace retry st n =
        (st, n + 1, .error (.unexpected ("An unexpected error occurred: " ++ msg))))
    ∧ (∀ v, detailOf (.json v) = .json v)
    ∧ (∀ s, detailOf (.raw s) = .text s) := by
  refine ⟨?_, ?_, ?_, fun _ => rfl, fun _ => rfl⟩
  · intro status body hresp hsucc h401 h403
    rw [request_step_eq args trace retry st n h, hresp]
    simp [hsucc, h401, h403]
  · intro msg hresp
    rw [request_step_eq args trace retry st n h, hresp]
  · intro msg hresp
    rw [request_step_eq args trace retry st n h, hresp]

/-- Witness for C3 at concrete inputs: a 500 response with a JSON error
body yields the generic API error carrying status 500 and the parsed
body. -/
theorem C3_error_classification_witness :
    tokenAbsent (ClientState.mk (some (.str "t"))).token = false ∧
    request gArgs (fun _ => .response 500 (.json (.obj [("detail", .str "boom")]))) 1
        ⟨some (.str "t")⟩ 0 =
      (⟨some (.str "t")⟩, 1,
        .error (.apiStatus 500 (.json (.obj [("detail", .str "boom")])))) :=
  ⟨rfl, (C3_error_classification gArgs _ 1 ⟨some (.str "t")⟩ 0 rfl).1 500
    (.json (.obj [("detail", .str "boom")])) rfl rfl (by decide) (by decide)⟩

/-- C5: every 2xx response is returned without error: 204 or an empty body
yields the absent result `None` (never a parse error); a JSON body yields
the parsed value; a non-JSON body yields the raw text (with a logged
warning) instead of raising. -/
theorem C5_success_body_handling (args : ReqArgs) (trace : Nat → HttpOutcome)
    (retry : Nat) (st : ClientState) (n : Nat)
    (h : tokenAbsent st.token = false) :
    (∀ body, trace n = .response 204 body →
      request args trace retry st n = (st, n + 1, .ok .null))
    ∧ (∀ status body, trace n = .response status body → isSuccess status = true →
      body.contentEmpty = true →
      request args trace retry st n = (st, n + 1, .ok .null))
    ∧ (∀ status v, trace n = .response status (.json v) → isSuccess status = true →
      status ≠ 204 →
      request args trace retry st n = (st, n + 1, .ok (.json v)))
    ∧ (∀ status s, trace n = .response status (.raw s) → isSuccess status = true →
      status ≠ 204 → s ≠ "" →
      request args trace retry st n = (st, n + 1, .ok (.text s))) := by
  refine ⟨?_, ?_, ?_, ?_⟩
  · intro body hresp
    rw [request_step_eq args trace retry st n h, hresp]
    simp [isSuccess]
  · intro status body hresp hsucc hempty
    rw [request_step_eq args trace retry st n h, hresp]
    simp [hsucc, hempty]
  · intro status v hresp hsucc h204
    rw [request_step_eq args trace retry st n h, hresp]
    simp [hsucc, h204, BodyKind.contentEmpty]
  · intro status s hresp hsucc h204 hs
    rw [request_step_eq args trace retry st n h, hresp]
    simp [hsucc, h204, hs, BodyKind.contentEmpty]

/-- Witness for C5 at concrete inputs: a 204 response and an empty 200 body
both return `None`; a 200 JSON body returns the parsed value; a 200
non-JSON body returns the raw text. -/
theorem C5_success_body_handling_witness :
    request gArgs (fun _ => .response 204 .empty) 1 ⟨some (.str "t")⟩ 0 =
      (⟨some (.str "t")⟩, 1, .ok .null)
    ∧ request gArgs (fun _ => .response 200 .empty) 1 ⟨some (.str "t")⟩ 0 =
      (⟨some (.str "t")⟩, 1, .ok .null)
    ∧ request gArgs (fun _ => .response 200 (.json userBody)) 1 ⟨some (.str "t")⟩ 0 =
      (⟨some (.str "t")⟩, 1, .ok (.json userBody))
    ∧ request gArgs (fun _ => .response 200 (.raw "<html>")) 1 ⟨some (.str "t")⟩ 0 =
      (⟨some (.str "t")⟩, 1, .ok (.text "<html>")) :=
  ⟨(C5_success_body_handling gArgs _ 1 ⟨some (.str "t")⟩ 0 rfl).1 .empty rfl,
   (C5_success_body_handling gArgs _ 1 ⟨some (.str "t")⟩ 0 rfl).2.1 200 .empty rfl rfl rfl,
   (C5_success_body_handling gArgs _ 1 ⟨some (.str "t")⟩ 0 rfl).2.2.1 200 userBody rfl rfl
     (by decide),
   (C5_success_body_handling gArgs _ 1 ⟨some (.str "t")⟩ 0 rfl).2.2.2 200 "<html>" rfl rfl
     (by decide) (by decide)⟩

/-- C10: frame condition on the held token during `_request`: with a token
held, a 2xx response, a non-auth HTTP error status, a transport-level
failure and an unexpected failure all leave the credential unchanged; a
401/403 response clears it (and sets it only through the subsequent
re-login, which is the other permitted modification). -/
theorem C10_token_frame (args : ReqArgs) (trace : Nat → HttpOutcome)
    (retry : Nat) (st : ClientState) (n : Nat)
    (h : tokenAbsent st.token = false) :
    (∀ status body, trace n = .response status body → isSuccess status = true →
      (request args trace retry st n).1 = st)
    ∧ (∀ status body, trace n = .response status body → isSuccess status = false →
      status ≠ 401 → status ≠ 403 →
      (request args trace retry st n).1 = st)
    ∧ (∀ msg, trace n = .transportError msg → (request args trace retry st n).1 = st)
    ∧ (∀ msg, trace n = .otherError msg → (request args trace retry st n).1 = st)
    ∧ (∀ status body, trace n = .response status body → (status = 401 ∨ status = 403) →
      (request args trace 0 st n).1 = invalidate st) := by
  refine ⟨?_, ?_, ?_, ?_, ?_⟩
  · intro status body hresp hsucc
    rw [request_step_eq args trace retry st n h, hresp]
    by_cases hne : (status == 204 || body.contentEmpty) = true
    · simp [hsucc, hne]
    · simp only [hsucc, if_true, hne, Bool.false_eq_true, if_false]
      cases body <;> simp
  · intro status body hresp hsucc h401 h403
    rw [request_step_eq args trace retry st n h, hresp]
    simp [hsucc, h401, h403]
  · intro msg hresp
    rw [request_step_eq args trace retry st n h, hresp]
  · intro msg hresp
    rw [request_step_eq args trace retry st n h, hresp]
  · intro status body hresp hs
    rw [request_step_eq args trace 0 st n h, hresp]
    have hsucc : isSuccess status = false := by
      rcases hs with hs | hs <;> subst hs <;> rfl
    rcases hs with hs | hs <;> subst hs <;> simp [hsucc, invalidate]

/-- Witness for C10 at concrete inputs: a 500 response and a transport
failure leave the token unchanged; a 401 with no retry budget clears it. -/
theorem C10_token_frame_witness :
    (request gArgs (fun _ => .response 500 .empty) 1 ⟨some (.str "t")⟩ 0).1 =
      ClientState.mk (some (.str "t"))
    ∧ (request gArgs (fun _ => .transportError "timeout") 1 ⟨some (.str "t")⟩ 0).1 =
      ClientState.mk (some (.str "t"))
    ∧ (request gArgs (fun _ => .response 401 .empty) 0 ⟨some (.str "t")⟩ 0).1 =
      invalidate ⟨some (.str "t")⟩ :=
  ⟨(C10_token_frame gArgs _ 1 ⟨some (.str "t")⟩ 0 rfl).2.1 500 .empty rfl rfl
     (by decide) (by decide),
   (C10_token_frame gArgs _ 1 ⟨some (.str "t")⟩ 0 rfl).2.2.1 "timeout" rfl,
   (C10_token_frame gArgs _ 0 ⟨some (.str "t")⟩ 0 rfl).2.2.2.2 401 .empty rfl (Or.inl rfl)⟩

/-- C1: on a 401/403 response the held token is cleared; with
`retry = r + 1` the identical request descriptor (`args` is passed
unchanged) is re-executed exactly once with budget `r`; with the budget
exhausted the call fails with `AuthenticationError` carrying the HTTP
status in its `status_code`.  The two closed conjuncts are P2's scenarios
with the default `retry = 1` (HTTP call 1 of each schedule is the
transparent re-login): 401-then-200 returns the second response's parsed
body after exactly 3 HTTP calls (attempt, re-login, attempt); 401-twice
fails with `AuthenticationError` after exactly the calls at indices 0, 1
and 2 — the result is the same however the schedule continues, so a third
request attempt is never made. -/
theorem C1_auth_reject_retry (args : ReqArgs) (trace : Nat → HttpOutcome)
    (st : ClientState) (n : Nat) (status : Nat) (body : BodyKind)
    (h : tokenAbsent st.token = false)
    (hresp : trace n = .response status body)
    (hs : status = 401 ∨ status = 403) :
    (∀ r, request args trace (r + 1) st n =
      request args trace r (invalidate st) (n + 1))
    ∧ (request args trace 0 st n =
      (invalidate st, n + 1, .error (.auth (.expiredOrInvalid status))))
    ∧ (AuthReason.expiredOrInvalid status).statusCode = some status
    ∧ request gArgs trace401then200 1 ⟨some (.str "t0")⟩ 0 =
      (⟨some (.str "tok2")⟩, 3, .ok (.json userBody))
    ∧ (∀ trace' : Nat → HttpOutcome, trace' 0 = .response 401 .empty →
      trace' 1 = .response 200 okLoginBody → trace' 2 = .response 401 .empty →
      request gArgs trace' 1 ⟨some (.str "t0")⟩ 0 =
        (⟨none⟩, 3, .error (.auth (.expiredOrInvalid 401)))) := by
  have hsucc : isSuccess status = false := by
    rcases hs with hs | hs <;> subst hs <;> rfl
  refine ⟨?_, ?_, rfl, by rfl, ?_⟩
  · intro r
    rw [request_step_eq args trace (r + 1) st n h, hresp]
    rcases hs with hs | hs <;> subst hs <;> simp [hsucc, invalidate]
  · rw [request_step_eq args trace 0 st n h, hresp]
    rcases hs with hs | hs <;> subst hs <;> simp [hsucc, invalidate]
  · intro trace' h0 h1 h2
    rw [request_step_eq gArgs trace' 1 ⟨some (.str "t0")⟩ 0 rfl, h0]
    simp only [show isSuccess 401 = false from rfl, Bool.false_eq_true, if_false,
      show ((401 == 401 : Bool) || (401 == 403 : Bool)) = true from rfl, if_true]
    rw [request_login_first gArgs trace' 0 ⟨none⟩ 1 rfl rfl, h1]
    rw [show login ⟨none⟩ (.response 200 okLoginBody) =
      (⟨some (.str "tok2")⟩, .ok ()) from rfl]
    show request gArgs trace' 0 ⟨some (.str "tok2")⟩ 2 =
      (⟨none⟩, 3, .error (.auth (.expiredOrInvalid 401)))
    rw [request_step_eq gArgs trace' 0 ⟨some (.str "tok2")⟩ 2 rfl, h2]
    simp [show isSuccess 401 = false from rfl]

/-- Witness for C1 at concrete inputs: a 403 response with no retry budget
clears the token and fails with `AuthenticationError` carrying
`status_code = 403`. -/
theorem C1_auth_reject_retry_witness :
    request gArgs (fun _ => .response 403 .empty) 0 ⟨some (.str "t")⟩ 0 =
      (invalidate ⟨some (.str "t")⟩, 1, .error (.auth (.expiredOrInvalid 403)))
    ∧ (AuthReason.expiredOrInvalid 403).statusCode = some 403
    ∧ request gArgs trace401then200 1 ⟨some (.str "t0")⟩ 0 =
      (⟨some (.str "tok2")⟩, 3, .ok (.json userBody))
    ∧ request gArgs trace401twice 1 ⟨some (.str "t0")⟩ 0 =
      (⟨none⟩, 3, .error (.auth (.expiredOrInvalid 401))) :=
  have hC := C1_auth_reject_retry gArgs (fun _ => .response 403 .empty)
    ⟨some (.str "t")⟩ 0 403 .empty rfl rfl (Or.inr rfl)
  ⟨hC.2.1, hC.2.2.1, hC.2.2.2.1, hC.2.2.2.2 trace401twice rfl rfl rfl⟩

/-- C9: a login `AuthenticationError` raised while obtaining headers
propagates out of `_request` unchanged — the header acquisition happens
before the `try` block, so the error is never rewrapped into the generic
`MoviePilotError`, and the request itself is never sent (exactly one HTTP
call, the login, was made).  The same holds for the re-login of the retry
path, whose recursive call sits inside the `except HTTPStatusError`
handler. -/
theorem C9_auth_error_propagation (args : ReqArgs) (trace : Nat → HttpOutcome)
    (st : ClientState) (n : Nat) (st' : ClientState) (e : LoginErr)
    (hra : args.requiresAuth = true)
    (habs : tokenAbsent st.token = true)
    (hfail : login st (trace n) = (st', .error e)) :
    (∀ retry, request args trace retry st n =
      (st', n + 1, .error (.auth (.login e))))
    ∧ (∀ st₀ m r status body st₂ e₂, tokenAbsent st₀.token = false →
      trace m = .response status body → (status = 401 ∨ status = 403) →
      login ⟨none⟩ (trace (m + 1)) = (st₂, .error e₂) →
      request args trace (r + 1) st₀ m =
        (st₂, m + 2, .error (.auth (.login e₂)))) := by
  constructor
  · intro retry
    rw [request_login_first args trace retry st n hra habs, hfail]
  · intro st₀ m r status body st₂ e₂ hheld hm hs hlf
    have hsucc : isSuccess status = false := by
      rcases hs with hs | hs <;> subst hs <;> rfl
    rw [request_step_eq args trace (r + 1) st₀ m hheld, hm]
    rcases hs with hs | hs <;> subst hs <;>
      · simp only [hsucc, Bool.false_eq_true, if_false, if_true,
          show ((401 == 401 : Bool) || (401 == 403 : Bool)) = true from rfl,
          show ((403 == 401 : Bool) || (403 == 403 : Bool)) = true from rfl]
        rw [request_login_first args trace r { st₀ with token := none } (m + 1) hra rfl,
          hlf]

/-- Witness for C9 at concrete inputs: with no token held and the login
call refused at transport level, `_request` fails with the login's own
`AuthenticationError` after a single HTTP call. -/
theorem C9_auth_error_propagation_witness :
    request gArgs (fun _ => .transportError "dns failure") 1 ⟨none⟩ 0 =
      (⟨none⟩, 1, .error (.auth (.login (.network "dns failure"))))
    ∧ request gArgs (fun _ => .response 401 .empty) 1 ⟨some (.str "t")⟩ 0 =
      (⟨none⟩, 2, .error (.auth (.login (.httpStatus 401 (.text ""))))) :=
  have hC := C9_auth_error_propagation gArgs (fun _ => .transportError "dns failure")
    ⟨none⟩ 0 ⟨none⟩ (.network "dns failure") rfl rfl rfl
  have hC2 := C9_auth_error_propagation gArgs (fun _ => .response 401 .empty)
    ⟨none⟩ 0 ⟨none⟩ (.httpStatus 401 (.text "")) rfl rfl rfl
  ⟨hC.1 1, hC2.2 ⟨some (.str "t")⟩ 0 0 401 .empty ⟨none⟩
    (.httpStatus 401 (.text "")) rfl rfl (Or.inl rfl) rfl⟩

/-- C4: every outcome of `login()` either succeeds or fails with an
`AuthenticationError` (the embedding's `LoginErr` covers exactly the
`AuthenticationError`s raised by `login`, so the first conjunct states
that no raw exception escapes); a non-2xx response is wrapped with the
status and the best-effort detail (parsed JSON if parseable, else raw
text); an `httpx.RequestError` is wrapped with a network-error message;
any other exception — including an unparseable success body — is wrapped
through the `except Exception` fallback. -/
theorem C4_login_error_classification (st : ClientState) :
    (∀ out, (login st out).2 = .ok () ∨ ∃ e, (login st out).2 = .error e)
    ∧ (∀ status body, isSuccess status = false →
      login st (.response status body) =
        (st, .error (.httpStatus status (detailOf body))))
    ∧ (∀ msg, login st (.transportError msg) = (st, .error (.network msg)))
    ∧ (∀ msg, login st (.otherError msg) =
      (st, .error (.unexpected (.otherEx msg))))
    ∧ (∀ status, isSuccess status = true →
      login st (.response status .empty) = (st, .error (.unexpected .bodyNotJson))
      ∧ (∀ s, login st (.response status (.raw s)) =
        (st, .error (.unexpected .bodyNotJson)))) := by
  refine ⟨?_, ?_, fun _ => rfl, fun _ => rfl, ?_⟩
  · intro out
    cases hq : (login st out).2 with
    | ok u => cases u; exact Or.inl rfl
    | error e => exact Or.inr ⟨e, rfl⟩
  · intro status body hsucc
    simp [login, hsucc]
  · intro status hsucc
    refine ⟨?_, fun s => ?_⟩ <;> simp [login, hsucc]

/-- Witness for C4 at concrete inputs: a 401 login response with a JSON
error body is wrapped with status and parsed detail; an empty 200 body
falls through to the unexpected wrap. -/
theorem C4_login_error_classification_witness :
    login ⟨none⟩ (.response 401 (.json (.obj [("detail", .str "bad credentials")]))) =
      (⟨none⟩, .error (.httpStatus 401 (.json (.obj [("detail", .str "bad credentials")]))))
    ∧ login ⟨none⟩ (.response 200 .empty) = (⟨none⟩, .error (.unexpected .bodyNotJson)) :=
  ⟨(C4_login_error_classification ⟨none⟩).2.1 401
     (.json (.obj [("detail", .str "bad credentials")])) rfl,
   ((C4_login_error_classification ⟨none⟩).2.2.2.2 200 rfl).1⟩

/-- C7: `login()` issues a form-encoded POST to
`{base_url}/api/v1/login/access-token` with body fields `username` and
`password`; on a 200 JSON response it stores the `access_token` string as
the held token; a 200 response whose JSON carries no `access_token` field
still fails with `AuthenticationError` (the inner no-token error,
re-wrapped by the `except Exception` clause) — and the absent token is
stored. -/
theorem C7_login_contract (cfg : ClientConfig) (st : ClientState) :
    loginSentRequest cfg.username cfg.password =
      { method := "POST", endpoint := "/api/v1/login/access-token",
        formData := [("username", cfg.username), ("password", cfg.password)],
        headers := [("Content-Type", "application/x-www-form-urlencoded")] }
    ∧ (loginSentRequest cfg.username cfg.password).fullUrl cfg.baseUrl =
      cfg.baseUrl ++ "/api/v1/login/access-token"
    ∧ (∀ fs s, fs.lookup "access_token" = some (.str s) → s ≠ "" →
      login st (.response 200 (.json (.obj fs))) =
        ({ token := some (.str s) }, .ok ()))
    ∧ (∀ fs, fs.lookup "access_token" = none →
      login st (.response 200 (.json (.obj fs))) =
        ({ token := none }, .error (.unexpected .noAccessToken))) := by
  refine ⟨rfl, rfl, ?_, ?_⟩
  · intro fs s hlk hs
    simp [login, isSuccess, hlk, tokenAbsent, JsonVal.truthy, hs]
  · intro fs hlk
    simp [login, isSuccess, hlk, tokenAbsent]

/-- Witness for C7 at concrete inputs: a 200 response with
`{"access_token": "jwt"}` stores the token; a 200 response with
`{"user": "u"}` fails with `AuthenticationError`. -/
theorem C7_login_contract_witness :
    login ⟨none⟩ (.response 200 (.json (.obj [("access_token", .str "jwt")]))) =
      (⟨some (.str "jwt")⟩, .ok ())
    ∧ login ⟨none⟩ (.response 200 (.json (.obj [("user", .str "u")]))) =
      (⟨none⟩, .error (.unexpected .noAccessToken))
    ∧ (loginSentRequest "u" "p").fullUrl "http://mp" =
      "http://mp" ++ "/api/v1/login/access-token" :=
  have hC := C7_login_contract { baseUrl := "http://mp", username := "u", password := "p" }
    ⟨none⟩
  ⟨hC.2.2.1 [("access_token", .str "jwt")] "jwt" rfl (by decide),
   hC.2.2.2 [("user", .str "u")] rfl,
   hC.2.1⟩

/-- C6 counterexample: with the base URL entirely missing (argument `None`,
`MOVIEPILOT_BASE_URL` unset) and both credentials present, construction
fails with httpx's raw `TypeError` from `AsyncClient(base_url=None)` at
line 47, which precedes — and so preempts — the descriptive configuration
`ValueError` of line 50.  Hence "construction with a missing … base_url …
fails … with a descriptive configuration error" is false as stated: the
failure on this input is not one of the descriptive `ValueError`s. -/
theorem C6_missing_url_raw_type_error :
    clientInit none (some "user") (some "pass") {} =
      .error (.typeError httpxUrlTypeMsg)
    ∧ InitError.isValueError (.typeError httpxUrlTypeMsg) = false
    ∧ InitError.isValueError (.valueError urlMissingMsg) = true
    ∧ InitError.isValueError (.valueError credentialsMissingMsg) = true :=
  ⟨rfl, rfl, rfl, rfl⟩

/-- C6 as amended: construction fails immediately — so the caller never
receives a client — exactly when the effective `base_url`, `username` or
`password` (argument `or` environment variable) is missing or empty.  The
failure is the descriptive configuration `ValueError` in every such case
except a base URL that resolves to `None`, where httpx's `TypeError`,
raised by the transport construction before the validation block, preempts
it.  A successfully constructed client holds no token. -/
theorem C6_construction_validation (b u p : Option String) (env : Env) :
    ((optStrFalsy (pyOr b env.baseUrl) = true
      ∨ optStrFalsy (pyOr u env.username) = true
      ∨ optStrFalsy (pyOr p env.password) = true)
      ↔ ∃ e, clientInit b u p env = .error e)
    ∧ (pyOr b env.baseUrl = none →
      clientInit b u p env = .error (.typeError httpxUrlTypeMsg))
    ∧ (pyOr b env.baseUrl = some "" →
      clientInit b u p env = .error (.valueError urlMissingMsg))
    ∧ (∀ bs, pyOr b env.baseUrl = some bs → bs ≠ "" →
      (optStrFalsy (pyOr u env.username) || optStrFalsy (pyOr p env.password)) = true →
      clientInit b u p env = .error (.valueError credentialsMissingMsg))
    ∧ (∀ cfg st, clientInit b u p env = .ok (cfg, st) → st.token = none) := by
  refine ⟨⟨?_, ?_⟩, ?_, ?_, ?_, ?_⟩
  · intro hf
    cases hb : pyOr b env.baseUrl with
    | none => exact ⟨.typeError httpxUrlTypeMsg, by simp [clientInit, hb]⟩
    | some bs =>
      by_cases hbs : bs = ""
      · subst hbs
        exact ⟨.valueError urlMissingMsg, by simp [clientInit, hb]⟩
      · have hup : (optStrFalsy (pyOr u env.username)
            || optStrFalsy (pyOr p env.password)) = true := by
          rcases hf with hf | hf | hf
          · rw [hb] at hf; simp [optStrFalsy, hbs] at hf
          · simp [hf]
          · simp [hf]
        exact ⟨.valueError credentialsMissingMsg, by simp [clientInit, hb, hbs, hup]⟩
  · rintro ⟨e, hmsg⟩
    by_contra hf
    push_neg at hf
    obtain ⟨hb, hu, hp⟩ := hf
    simp only [Bool.not_eq_true] at hb hu hp
    cases hbv : pyOr b env.baseUrl with
    | none => rw [hbv] at hb; exact Bool.noConfusion hb
    | some bs =>
      rw [hbv] at hb
      simp only [optStrFalsy] at hb
      simp [clientInit, hbv, hb, hu, hp] at hmsg
  · intro hb
    simp [clientInit, hb]
  · intro hb
    simp [clientInit, hb]
  · intro bs hb hbs hup
    simp [clientInit, hb, hbs, hup]
  · intro cfg st hok
    cases hbv : pyOr b env.baseUrl with
    | none => simp [clientInit, hbv] at hok
    | some bs =>
      by_cases hbs : bs = ""
      · subst hbs; simp [clientInit, hbv] at hok
      · cases hup : (optStrFalsy (pyOr u env.username)
            || optStrFalsy (pyOr p env.password)) with
        | true => simp [clientInit, hbv, hbs, hup] at hok
        | false =>
          simp only [clientInit, hbv, hbs, hup, beq_iff_eq, if_false,
            Bool.false_eq_true] at hok
          cases hok
          rfl

/-- Witness for the amended C6 at concrete inputs: a `None`-resolving base
URL gives httpx's `TypeError`; an empty-string environment base URL gives
the descriptive URL `ValueError`; missing credentials give the descriptive
credentials `ValueError`; something configured everywhere constructs a
client holding no token. -/
theorem C6_construction_validation_witness :
    clientInit none (some "u") (some "p") {} = .error (.typeError httpxUrlTypeMsg)
    ∧ clientInit none (some "u") (some "p") { baseUrl := some "" } =
      .error (.valueError urlMissingMsg)
    ∧ clientInit (some "http://mp") none none {} =
      .error (.valueError credentialsMissingMsg)
    ∧ (∃ e, clientInit none none none {} = .error e)
    ∧ ClientState.token ⟨none⟩ = none :=
  ⟨(C6_construction_validation none (some "u") (some "p") {}).2.1 rfl,
   (C6_construction_validation none (some "u") (some "p") { baseUrl := some "" }).2.2.1 rfl,
   (C6_construction_validation (some "http://mp") none none {}).2.2.2.1 "http://mp" rfl
     (by decide) rfl,
   (C6_construction_validation none none none {}).1.1 (Or.inl rfl),
   (C6_construction_validation (some "http://mp") (some "us") (some "pw") {}).2.2.2.2
     { baseUrl := "http://mp", username := "us", password := "pw" } ⟨none⟩ rfl⟩

/-- C8: clearing the token when none is held is a no-op on the client
state; header acquisition from a token-absent state issues exactly one
login network call (whether it succeeds or fails), and none when a truthy
token is held; after an invalidated (absent) token, a full `_request`
whose re-login succeeds and whose call returns 2xx makes exactly two HTTP
calls — one login, one request. -/
theorem C8_invalidate_noop (st : ClientState) (h : st.token = none)
    (trace : Nat → HttpOutcome) (n : Nat) :
    invalidate st = st
    ∧ (∀ st₂ : ClientState, tokenAbsent st₂.token = true →
      (getAuthHeaders st₂ trace n).2.1 = n + 1)
    ∧ (∀ st₂ : ClientState, tokenAbsent st₂.token = false →
      (getAuthHeaders st₂ trace n).2.1 = n)
    ∧ (∀ (args : ReqArgs) retry st₂, args.requiresAuth = true →
      login st (trace n) = (st₂, .ok ()) →
      ∀ status body, trace (n + 1) = .response status body → isSuccess status = true →
      (request args trace retry st n).2.1 = n + 2) := by
  refine ⟨?_, ?_, ?_, ?_⟩
  · cases st with
    | mk token => cases h; rfl
  · intro st₂ habs
    simp only [getAuthHeaders, habs, if_true]
    cases hl : login st₂ (trace n) with
    | mk st' r => cases r with
      | ok u => cases u; rfl
      | error e => rfl
  · intro st₂ hheld
    simp [getAuthHeaders, hheld]
  · intro args retry st₂ hra hlogin status body hresp hsucc
    have habs : tokenAbsent st.token = true := by rw [h]; rfl
    rw [request_login_first args trace retry st n hra habs, hlogin]
    show (request args trace retry st₂ (n + 1)).2.1 = n + 2
    rw [request_step_eq args trace retry st₂ (n + 1)
      (login_ok_token st st₂ (trace n) hlogin), hresp]
    by_cases hne : (status == 204 || body.contentEmpty) = true
    · simp [hsucc, hne]
    · simp only [hsucc, if_true, hne, Bool.false_eq_true, if_false]
      cases body <;> rfl

/-- Witness for C8 at concrete inputs: invalidating a token-free client
changes nothing; a subsequent authenticated request performs exactly one
login (HTTP call 0) followed by the request itself (HTTP call 1). -/
theorem C8_invalidate_noop_witness :
    invalidate ⟨none⟩ = (⟨none⟩ : ClientState)
    ∧ (getAuthHeaders ⟨none⟩ okOuts 0).2.1 = 1
    ∧ (getAuthHeaders ⟨some (.str "t")⟩ okOuts 0).2.1 = 0
    ∧ (request gArgs (fun k => if k = 0 then .response 200 okLoginBody
        else .response 200 (.json userBody)) 1 ⟨none⟩ 0).2.1 = 2 :=
  have hC := C8_invalidate_noop ⟨none⟩ rfl
    (fun k => if k = 0 then .response 200 okLoginBody else .response 200 (.json userBody)) 0
  have hC2 := C8_invalidate_noop ⟨none⟩ rfl okOuts 0
  ⟨hC2.1, hC2.2.1 ⟨none⟩ rfl, hC2.2.2.1 ⟨some (.str "t")⟩ rfl,
   hC.2.2.2 gArgs 1 ⟨some (.str "tok2")⟩ rfl rfl 200 (.json userBody) rfl rfl⟩

/-- C2 counterexample: the claim "exactly one login network call is issued"
is false when the single login that resolves the race fails.  With N = 2
callers racing from the no-token initial state and every login refused at
transport level, there is a complete reachable execution (both callers
finished, each with its own `AuthenticationError`) in which two login
network calls were issued: the first caller's login fails, the second —
which waited on the lock — re-checks, still finds no token, and issues its
own login rather than observing the first one's failure. -/
theorem C2_two_logins_on_failed_login :
    ∃ s : RaceState 2, RReach 2 refusedOuts s ∧ s.loginCount = 2 ∧
      ∀ i, s.pc i = .failed := by
  have h0 : RReach 2 refusedOuts (raceInit 2) := .init
  have h1 := RReach.step h0 (RStep.checkAbsent 0 _ rfl rfl)
  have h2 := RReach.step h1 (RStep.acquire 0 _ rfl rfl)
  have h3 := RReach.step h2 (RStep.recheckAbsent 0 _ rfl rfl)
  have h4 := RReach.step h3
    (RStep.loginFail 0 _ ⟨none⟩ (.network "connection refused") rfl rfl)
  have h5 := RReach.step h4 (RStep.checkAbsent 1 _ rfl rfl)
  have h6 := RReach.step h5 (RStep.acquire 1 _ rfl rfl)
  have h7 := RReach.step h6 (RStep.recheckAbsent 1 _ rfl rfl)
  have h8 := RReach.step h7
    (RStep.loginFail 1 _ ⟨none⟩ (.network "connection refused") rfl rfl)
  refine ⟨_, h8, rfl, ?_⟩
  intro i
  fin_cases i <;> rfl

/-- C2 as amended: when the single login that resolves the race succeeds,
at most one login network call is ever issued; every caller that finishes
does so with the header of that login's token, at which point exactly one
login call has happened; and no caller observes a login failure. -/
theorem C2_single_login_on_success (N : Nat) (outs : Nat → HttpOutcome)
    (st₀ : ClientState) (hN : 2 ≤ N)
    (hok : login ⟨none⟩ (outs 0) = (st₀, .ok ()))
    {s : RaceState N} (hs : RReach N outs s) :
    s.loginCount ≤ 1
    ∧ (∀ i h, s.pc i = .done h → h = bearer st₀.token ∧ s.loginCount = 1)
    ∧ (∀ i, s.pc i ≠ .failed) := by
  obtain ⟨inv1, inv2, inv3, inv4, inv5⟩ := raceInv_reach N outs st₀ hok hs
  refine ⟨?_, inv5, inv4⟩
  rcases inv3 with ⟨hc, _⟩ | ⟨hc, _⟩ <;> rw [hc] <;> omega

/-- Witness for the amended C2: with both callers still at `start` (the
initial state) and a succeeding login schedule, the conclusion holds; a
run of one caller to completion reaches `done` with the login's header. -/
theorem C2_single_login_on_success_witness :
    (2 ≤ 2)
    ∧ login ⟨none⟩ (okOuts 0) = (⟨some (.str "tok2")⟩, .ok ())
    ∧ ((raceInit 2).loginCount ≤ 1
      ∧ (∀ i h, (raceInit 2).pc i = .done h →
          h = bearer (ClientState.mk (some (.str "tok2"))).token
          ∧ (raceInit 2).loginCount = 1)
      ∧ (∀ i, (raceInit 2).pc i ≠ .failed)) :=
  ⟨Nat.le_refl 2, rfl,
   C2_single_login_on_success 2 okOuts ⟨some (.str "tok2")⟩ (Nat.le_refl 2) rfl
     RReach.init⟩

end MoviePilot
